import Mathlib

/-!
Shallow embedding of the AMIN repository core (src/config.py and
src/data_collector.py) and proofs of its specified properties.

Python strings are embedded as `String`, Python ints as `Int`, Python
floats (only ever parsed, never computed with) and wall-clock times as `ℚ`.
`os.environ` is an association list from variable names to values;
`os.getenv(k, d)` is lookup with a default.  A Python function that can
raise is embedded as a function into `Except`.
-/

set_option autoImplicit false

attribute [local semireducible] Rat.add Rat.sub Rat.mul Rat.inv Rat.ofScientific

/-- Decidable equality for `Except`, so that runs of the embedded
fallible functions can be checked on concrete inputs. -/
instance {ε α : Type} [DecidableEq ε] [DecidableEq α] :
    DecidableEq (Except ε α) := fun x y =>
  match x, y with
  | .error a, .error b => decidable_of_iff (a = b) (by simp)
  | .error _, .ok _ => isFalse (fun h => Except.noConfusion h)
  | .ok _, .error _ => isFalse (fun h => Except.noConfusion h)
  | .ok a, .ok b => decidable_of_iff (a = b) (by simp)

namespace AMIN

/-- First-match lookup in an association list, the embedding of Python
`d[k]` / `k in d` on a `dict` (each key occurs at most once). -/
def dictGet {α : Type} : List (String × α) → String → Option α
  | [], _ => none
  | (k, v) :: rest, key => if k = key then some v else dictGet rest key

/-- In-place update-or-append, the embedding of Python `d[k] = v` on a
`dict` (insertion order is preserved, an existing key is overwritten). -/
def dictSet {α : Type} : List (String × α) → String → α → List (String × α)
  | [], key, v => [(key, v)]
  | (k, w) :: rest, key, v =>
      if k = key then (key, v) :: rest else (k, w) :: dictSet rest key v

/-- An environment-variable assignment: which variables are set, and to
what string. -/
abbrev Env := List (String × String)

/-- Embedding of `os.getenv(key, default)`: the variable's value when it
is set (even to the empty string), the default otherwise. -/
def getenv (env : Env) (key dflt : String) : String :=
  (dictGet env key).getD dflt

/-- Embedding of Python `s.split(sep)` for a single-character separator,
on the character list: always returns at least one piece. -/
def pySplitChar (sep : Char) : List Char → List (List Char)
  | [] => [[]]
  | c :: cs =>
      match pySplitChar sep cs with
      | [] => [[]]
      | piece :: rest =>
          if c = sep then [] :: piece :: rest else (c :: piece) :: rest

/-- Embedding of Python `s.split(sep)` for a single-character separator. -/
def pySplit (sep : Char) (s : String) : List String :=
  (pySplitChar sep s.data).map (fun cs => String.mk cs)

/-- Value of a decimal digit list read most-significant first (an empty
list reads as 0; callers guard non-emptiness where Python does). -/
def digitsToNat (l : List Char) : Nat :=
  l.foldl (fun acc c => acc * 10 + (c.toNat - 48)) 0

/-- Whether a character list is a non-empty run of decimal digits. -/
def isDigits (l : List Char) : Bool :=
  !l.isEmpty && l.all (fun c => c.isDigit)

/-- Sign-and-digits core of Python `int(s)`. -/
def pyIntCore : List Char → Option Int
  | '+' :: rest => if isDigits rest then some (digitsToNat rest : Int) else none
  | '-' :: rest => if isDigits rest then some (-(digitsToNat rest : Int)) else none
  | rest => if isDigits rest then some (digitsToNat rest : Int) else none

/-- Embedding of Python `int(s)`: surrounding whitespace is stripped, then
an optional sign and a non-empty digit run; anything else raises
`ValueError`, embedded as `none`. -/
def pyInt (s : String) : Option Int :=
  pyIntCore (((s.data.dropWhile (fun c => c.isWhitespace)).reverse.dropWhile
    (fun c => c.isWhitespace)).reverse)

/-- Unsigned decimal core of Python `float(s)`: digits with an optional
fractional part, at least one digit overall. -/
def pyFloatCore (l : List Char) : Option ℚ :=
  match pySplitChar '.' l with
  | [ip] => if isDigits ip then some ((digitsToNat ip : ℚ)) else none
  | [ip, fp] =>
      if ip.all (fun c => c.isDigit) && fp.all (fun c => c.isDigit)
          && (!ip.isEmpty || !fp.isEmpty) then
        some ((digitsToNat ip : ℚ) + (digitsToNat fp : ℚ) / (((10 : ℕ) ^ fp.length : ℕ) : ℚ))
      else none
  | _ => none

/-- Embedding of Python `float(s)` on the decimal forms the repository
uses: whitespace stripped, optional sign, digits with an optional point. -/
def pyFloat (s : String) : Option ℚ :=
  let core := ((s.data.dropWhile (fun c => c.isWhitespace)).reverse.dropWhile
    (fun c => c.isWhitespace)).reverse
  match core with
  | '+' :: rest => pyFloatCore rest
  | '-' :: rest => (pyFloatCore rest).map (fun q => -q)
  | rest => pyFloatCore rest

/-- Embedding of Python `s.upper()` on the ASCII strings the repository
reads from `LOG_LEVEL`. -/
def pyUpper (s : String) : String :=
  String.mk (s.data.map Char.toUpper)

/-- `ExchangeConfig` dataclass of src/config.py. -/
structure ExchangeConfig where
  name : String
  api_key : String := ""
  api_secret : String := ""
  rate_limit : Int := 10
  timeout : Int := 30
deriving DecidableEq, Repr

/-- `FirebaseConfig` dataclass of src/config.py. -/
structure FirebaseConfig where
  project_id : String := ""
  credentials_path : String := ""
  collection_name : String := "amin_market_data"
deriving DecidableEq, Repr

/-- The fields the `Config` object of src/config.py carries after
`__init__` returns (the two settings dicts are flattened into fields). -/
structure Config where
  log_level : String
  environment : String
  exchanges : List (String × ExchangeConfig)
  firebase : FirebaseConfig
  window_size : Int
  polling_interval : Int
  symbols : List String
  prediction_horizon : Int
  confidence_threshold : ℚ
  retrain_interval : Int
deriving DecidableEq, Repr

/-- The one exception kind `Config.__init__` can raise: `ValueError`,
either from `int()` / `float()` on a malformed literal or from
`_validate_config`. -/
inductive ConfigError where
  | valueError (msg : String)
deriving DecidableEq, Repr

/-- `int(...)` as used in `Config.__init__`: a parse failure raises
`ValueError`. -/
def pyIntE (s : String) : Except ConfigError Int :=
  match pyInt s with
  | some n => .ok n
  | none => .error (.valueError ("invalid literal for int(): " ++ s))

/-- `float(...)` as used in `Config.__init__`: a parse failure raises
`ValueError`. -/
def pyFloatE (s : String) : Except ConfigError ℚ :=
  match pyFloat s with
  | some q => .ok q
  | none => .error (.valueError ("could not convert string to float: " ++ s))

/-- `Config._validate_config` of src/config.py, returning the list of
warnings logged; raises `ValueError` when the environment is
`"production"` and the Firebase project id is empty. -/
def validateConfig (cfg : Config) : Except ConfigError (List String) :=
  let warnings :=
    if ((dictGet cfg.exchanges "binance").map (fun e => e.api_key) = some ""
        ∧ cfg.environment = "production") then
      ["Binance API key not configured"]
    else []
  if cfg.firebase.project_id = "" ∧ cfg.environment = "production" then
    .error (.valueError "Firebase configuration missing")
  else .ok warnings

/-- The configuration snapshot `Config.__init__` builds from the
environment once the numeric fields are parsed. -/
def buildConfig (env : Env) (window_size polling_interval prediction_horizon : Int)
    (confidence_threshold : ℚ) (retrain_interval : Int) : Config :=
  { log_level := pyUpper (getenv env "LOG_LEVEL" "INFO")
    environment := getenv env "ENVIRONMENT" "development"
    exchanges :=
      [("binance",
        { name := "binance"
          api_key := getenv env "BINANCE_API_KEY" ""
          api_secret := getenv env "BINANCE_API_SECRET" "" }),
       ("coinbase",
        { name := "coinbase"
          api_key := getenv env "COINBASE_API_KEY" ""
          api_secret := getenv env "COINBASE_API_SECRET" "" })]
    firebase :=
      { project_id := getenv env "FIREBASE_PROJECT_ID" ""
        credentials_path := getenv env "FIREBASE_CREDENTIALS_PATH" ""
        collection_name := getenv env "FIREBASE_COLLECTION" "amin_market_data" }
    window_size := window_size
    polling_interval := polling_interval
    symbols := pySplit ',' (getenv env "SYMBOLS" "BTC/USDT,ETH/USDT")
    prediction_horizon := prediction_horizon
    confidence_threshold := confidence_threshold
    retrain_interval := retrain_interval }

/-- `Config.__init__` of src/config.py: reads the environment variables
with their documented defaults, builds the configuration snapshot, then
runs `_validate_config`.  Returns the snapshot together with the logged
warnings, or the raised `ValueError`; a `ValueError` from parsing a
numeric variable propagates exactly as in Python. -/
def mkConfig (env : Env) : Except ConfigError (Config × List String) :=
  match pyIntE (getenv env "WINDOW_SIZE" "100") with
  | .error e => .error e
  | .ok window_size =>
    match pyIntE (getenv env "POLLING_INTERVAL" "60") with
    | .error e => .error e
    | .ok polling_interval =>
      match pyIntE (getenv env "PREDICTION_HORIZON" "5") with
      | .error e => .error e
      | .ok prediction_horizon =>
        match pyFloatE (getenv env "CONFIDENCE_THRESHOLD" "0.7") with
        | .error e => .error e
        | .ok confidence_threshold =>
          match pyIntE (getenv env "RETRAIN_INTERVAL" "3600") with
          | .error e => .error e
          | .ok retrain_interval =>
            let cfg := buildConfig env window_size polling_interval
              prediction_horizon confidence_threshold retrain_interval
            match validateConfig cfg with
            | .error e => .error e
            | .ok warnings => .ok (cfg, warnings)

/-- Whether a `Config()` construction run returned normally. -/
def exceptIsOk : Except ConfigError (Config × List String) → Bool
  | .ok _ => true
  | .error _ => false

/-- The warnings a `Config()` construction run logged (none when it
raised). -/
def resultWarnings : Except ConfigError (Config × List String) → List String
  | .ok r => r.2
  | .error _ => []

/-- Loop body of `Config.get_active_exchanges`: append each exchange name
whose key and secret are both truthy (non-empty) to the accumulator. -/
def activeLoop : List (String × ExchangeConfig) → List String → List String
  | [], active => active
  | (name, ex) :: rest, active =>
      if ex.api_key ≠ "" ∧ ex.api_secret ≠ "" then
        activeLoop rest (active ++ [name])
      else activeLoop rest active

/-- `Config.get_active_exchanges` of src/config.py. -/
def get_active_exchanges (cfg : Config) : List String :=
  activeLoop cfg.exchanges []

/-- The exception kinds `_initialize_exchanges` distinguishes:
`ccxt.AuthenticationError`, `ccxt.NetworkError`, and every other
`Exception` subclass. -/
inductive PyErr where
  | auth (msg : String)
  | network (msg : String)
  | other (msg : String)
deriving DecidableEq, Repr

/-- The part of a ccxt exchange client src/data_collector.py reads:
its `rateLimit` attribute (fetch behaviour is supplied separately as an
oracle). -/
structure Client where
  rateLimit : ℚ
deriving DecidableEq, Repr

/-- The keys of the `exchange_classes` dict in
`MarketDataCollector._initialize_exchanges`. -/
def supportedExchanges : List String := ["binance", "coinbase"]

/-- The `try` body of one `_initialize_exchanges` loop iteration:
construct the client (may raise), assign it into `self.exchanges`, then
call `load_markets` (may raise).  Returns the mapping as mutated so far
together with the exception escaping the body, if any: an assignment made
before a later raise persists. -/
def initTryBody (construct : String → Except PyErr Client)
    (loadMarkets : String → Except PyErr Unit)
    (exchanges : List (String × Client)) (name : String) :
    List (String × Client) × Option PyErr :=
  if name ∈ supportedExchanges then
    match construct name with
    | .error e => (exchanges, some e)
    | .ok c =>
        let exchanges1 := dictSet exchanges name c
        match loadMarkets name with
        | .error e => (exchanges1, some e)
        | .ok _ => (exchanges1, none)
  else (exchanges, none)

/-- One `_initialize_exchanges` loop iteration with its `except` chain:
`AuthenticationError`, `NetworkError` and `Exception` are each caught and
logged, so no exception escapes the iteration. -/
def initStep (construct : String → Except PyErr Client)
    (loadMarkets : String → Except PyErr Unit)
    (exchanges : List (String × Client)) (name : String) :
    List (String × Client) × Option PyErr :=
  match initTryBody construct loadMarkets exchanges name with
  | (ex1, none) => (ex1, none)
  | (ex1, some (.auth _)) => (ex1, none)
  | (ex1, some (.network _)) => (ex1, none)
  | (ex1, some (.other _)) => (ex1, none)

/-- The `for` loop of `_initialize_exchanges`: an exception escaping an
iteration would abort the loop and propagate. -/
def initLoop (construct : String → Except PyErr Client)
    (loadMarkets : String → Except PyErr Unit) :
    List String → List (String × Client) → List (String × Client) × Option PyErr
  | [], exchanges => (exchanges, none)
  | name :: rest, exchanges =>
      match initStep construct loadMarkets exchanges name with
      | (ex1, none) => initLoop construct loadMarkets rest ex1
      | (ex1, some e) => (ex1, some e)

/-- `MarketDataCollector._initialize_exchanges`: iterate over
`config.get_active_exchanges()` starting from the empty mapping.  The
second component is the exception the method raises, if any. -/
def initializeExchanges (cfg : Config)
    (construct : String → Except PyErr Client)
    (loadMarkets : String → Except PyErr Unit) :
    List (String × Client) × Option PyErr :=
  initLoop construct loadMarkets (get_active_exchanges cfg) []

/-- One OHLCV row as returned by the underlying
`exchange.fetch_ohlcv`: timestamp (epoch milliseconds), open, high, low,
close, volume. -/
structure OhlcvRow where
  timestamp : ℚ
  openPrice : ℚ
  high : ℚ
  low : ℚ
  close : ℚ
  volume : ℚ
deriving DecidableEq, Repr

/-- Oracle for one exchange's underlying `fetch_ohlcv`: the outcome and
the wall-clock duration of a call started at a given time. -/
structure FetchBehavior where
  result : ℚ → Except PyErr (List OhlcvRow)
  duration : ℚ → ℚ

/-- Observable events of a `fetch_ohlcv` call: a `time.sleep` of a given
duration, the start of an underlying network fetch on an exchange at a
given time, and a `last_fetch_time` record for an exchange at a given
time. -/
inductive Event where
  | sleep (d : ℚ)
  | netcall (name : String) (t : ℚ)
  | lftSet (name : String) (t : ℚ)
deriving DecidableEq, Repr

/-- Result of the visible per-candidate body of `fetch_ohlcv`
(src/data_collector.py lines 85-104): the events it performed, the
`last_fetch_time` mapping and clock afterwards, and its outcome —
`.ok (some rows)` when the underlying fetch returned a non-empty list
(the DataFrame branch), `.ok none` when it returned an empty list, and
`.error e` when it raised. -/
structure AttemptOut where
  events : List Event
  lft : List (String × ℚ)
  clock : ℚ
  result : Except PyErr (Option (List OhlcvRow))
deriving DecidableEq, Repr

/-- The rate-limit check of `fetch_ohlcv` (lines 89-93): when the
exchange has a recorded last fetch and less than `1.0 / rateLimit`
seconds have elapsed, sleep off the remainder.  Returns the clock at
which the underlying fetch is then invoked, and the sleep events
performed. -/
def rateLimitWait (ex : Client) (name : String) (lft : List (String × ℚ))
    (clock : ℚ) : ℚ × List Event :=
  match dictGet lft name with
  | some last =>
      let time_since_last := clock - last
      if time_since_last < 1 / ex.rateLimit then
        (clock + (1 / ex.rateLimit - time_since_last),
         [Event.sleep (1 / ex.rateLimit - time_since_last)])
      else (clock, ([] : List Event))
  | none => (clock, ([] : List Event))

/-- The per-candidate body of `fetch_ohlcv` for a live exchange: run the
rate-limit wait, invoke the underlying fetch at the waited-to clock, and
on normal return record `time.time()` into `last_fetch_time`; a raising
fetch skips the record. -/
def attemptExchange (beh : FetchBehavior) (ex : Client) (name : String)
    (lft : List (String × ℚ)) (clock : ℚ) : AttemptOut :=
  let waited := rateLimitWait ex name lft clock
  let callTime := waited.1
  match beh.result callTime with
  | .error e =>
      { events := waited.2 ++ [Event.netcall name callTime]
        lft := lft
        clock := callTime + beh.duration callTime
        result := .error e }
  | .ok rows =>
      let doneTime := callTime + beh.duration callTime
      { events := waited.2 ++ [Event.netcall name callTime, Event.lftSet name doneTime]
        lft := dictSet lft name doneTime
        clock := doneTime
        result := .ok (if rows.isEmpty then none else some rows) }

/-- The mutable collector state `fetch_ohlcv` touches: the live client
mapping, the `last_fetch_time` mapping, and the wall clock. -/
structure FetchState where
  exchanges : List (String × Client)
  lft : List (String × ℚ)
  clock : ℚ
deriving DecidableEq, Repr

/-- Result of a whole `fetch_ohlcv` call: its events, the state
afterwards, and the returned rows (`none` embeds returning `None`). -/
structure FetchResult where
  events : List Event
  state : FetchState
  df : Option (List OhlcvRow)
deriving DecidableEq, Repr

/-- The candidate loop of `fetch_ohlcv`: a candidate with no live client
is skipped; a live one runs the per-candidate body.  Modelled from the
spec where the source is truncated after line 104: on a successful fetch
with non-empty rows the shaped table is returned at once; on a raised
fetch error or an empty result the loop continues with the next
candidate, and `None` is returned after the loop. -/
def fetchLoop (beh : String → FetchBehavior) :
    List String → FetchState → List Event → FetchResult
  | [], st, evs => { events := evs, state := st, df := none }
  | name :: rest, st, evs =>
      match dictGet st.exchanges name with
      | none => fetchLoop beh rest st evs
      | some ex =>
          let out := attemptExchange (beh name) ex name st.lft st.clock
          let st1 : FetchState :=
            { exchanges := st.exchanges, lft := out.lft, clock := out.clock }
          match out.result with
          | .ok (some rows) =>
              { events := evs ++ out.events, state := st1, df := some rows }
          | _ => fetchLoop beh rest st1 (evs ++ out.events)

/-- The candidate list `exchanges_to_use` computed on line 79 of
src/data_collector.py: the single named exchange when one is given,
otherwise all live exchanges in mapping order. -/
def candidateList (st : FetchState) (exchange_name : Option String) :
    List String :=
  match exchange_name with
  | some n => [n]
  | none => st.exchanges.map Prod.fst

/-- `MarketDataCollector.fetch_ohlcv`: run the candidate loop over
`exchanges_to_use` starting with no events performed. -/
def fetchOhlcv (beh : String → FetchBehavior) (st : FetchState)
    (exchange_name : Option String) : FetchResult :=
  fetchLoop beh (candidateList st exchange_name) st []

/-- Whether an event is a `time.sleep`. -/
def isSleep : Event → Bool
  | .sleep _ => true
  | _ => false

/-- Test fixture: behaviour whose underlying fetch instantly returns one
OHLCV row. -/
def behFetchOk : String → FetchBehavior :=
  fun _ => { result := fun _ => .ok [⟨0, 0, 0, 0, 0, 0⟩], duration := fun _ => 0 }

/-- Test fixture: behaviour whose underlying fetch raises
`ccxt.NetworkError` after one second. -/
def behFetchErr : FetchBehavior :=
  { result := fun _ => .error (.network "connection reset"), duration := fun _ => 1 }

/-- Test fixture: client construction that always succeeds with ccxt's
stock rate limit. -/
def constructOk : String → Except PyErr Client :=
  fun _ => .ok { rateLimit := 10 }

/-- Test fixture: `load_markets` that always raises
`ccxt.AuthenticationError`. -/
def loadMarketsAuthFail : String → Except PyErr Unit :=
  fun _ => .error (.auth "Invalid API key")

/-- Test fixture: a configuration with Binance credentials set and
Coinbase credentials absent. -/
def cfgBinanceKeys : Config :=
  { log_level := "INFO"
    environment := "development"
    exchanges :=
      [("binance", { name := "binance", api_key := "k", api_secret := "s" }),
       ("coinbase", { name := "coinbase" })]
    firebase := {}
    window_size := 100
    polling_interval := 60
    symbols := ["BTC/USDT", "ETH/USDT"]
    prediction_horizon := 5
    confidence_threshold := 7 / 10
    retrain_interval := 3600 }

/-- The configuration snapshot `Config()` documents for an empty
environment: every variable takes its default. -/
def defaultConfig : Config :=
  { log_level := "INFO"
    environment := "development"
    exchanges :=
      [("binance", { name := "binance" }), ("coinbase", { name := "coinbase" })]
    firebase := {}
    window_size := 100
    polling_interval := 60
    symbols := ["BTC/USDT", "ETH/USDT"]
    prediction_horizon := 5
    confidence_threshold := 7 / 10
    retrain_interval := 3600 }

/-! ## Helper lemmas -/

theorem dictGet_dictSet_self {α : Type} (l : List (String × α)) (k : String)
    (v : α) : dictGet (dictSet l k v) k = some v := by
  induction l with
  | nil => simp [dictGet, dictSet]
  | cons p rest ih =>
      obtain ⟨k1, w⟩ := p
      by_cases h : k1 = k
      · subst h; simp [dictGet, dictSet]
      · simp [dictGet, dictSet, h, ih]

theorem activeLoop_eq (l : List (String × ExchangeConfig)) (acc : List String) :
    activeLoop l acc =
      acc ++ (l.filter
        (fun p => decide (p.2.api_key ≠ "" ∧ p.2.api_secret ≠ ""))).map Prod.fst := by
  induction l generalizing acc with
  | nil => simp [activeLoop]
  | cons p rest ih =>
      obtain ⟨name, ex⟩ := p
      by_cases h : ex.api_key ≠ "" ∧ ex.api_secret ≠ ""
      · rw [activeLoop, if_pos h, ih, List.filter_cons_of_pos (by simpa using h)]
        simp
      · rw [activeLoop, if_neg h, ih, List.filter_cons_of_neg (by simpa using h)]

theorem pySplitChar_ne_nil (sep : Char) (l : List Char) :
    pySplitChar sep l ≠ [] := by
  cases l with
  | nil => simp [pySplitChar]
  | cons c cs =>
      cases hE : pySplitChar sep cs with
      | nil => simp [pySplitChar, hE]
      | cons piece rest =>
          by_cases hc : c = sep <;> simp [pySplitChar, hE, hc]

theorem pySplit_ne_nil (sep : Char) (s : String) : pySplit sep s ≠ [] := by
  simpa [pySplit] using pySplitChar_ne_nil sep s.data

theorem initStep_snd (c : String → Except PyErr Client)
    (lm : String → Except PyErr Unit) (acc : List (String × Client))
    (name : String) : (initStep c lm acc name).2 = none := by
  rcases h : initTryBody c lm acc name with ⟨ex1, _ | e⟩
  · simp [initStep, h]
  · rcases e with m | m | m <;> simp [initStep, h]

theorem initLoop_snd (c : String → Except PyErr Client)
    (lm : String → Except PyErr Unit) (names : List String)
    (acc : List (String × Client)) : (initLoop c lm names acc).2 = none := by
  induction names generalizing acc with
  | nil => simp [initLoop]
  | cons n rest ih =>
      rcases h : initStep c lm acc n with ⟨ex1, err⟩
      have h2 := initStep_snd c lm acc n
      rw [h] at h2
      simp only at h2
      subst h2
      simpa [initLoop, h] using ih ex1

/-! ## Claim theorems -/

/-- C1 (code evaluation at the failing input): `_initialize_exchanges`
never raises — every exception kind is caught by the `except` chain — but
when an active exchange's `load_markets` raises `ccxt.AuthenticationError`
the already-assigned client stays in `self.exchanges`: with Binance
credentials configured, successful client construction and an
authentication failure in `load_markets`, initialization returns normally
with `"binance"` still mapped to a live client, contradicting the claim
that the exchange is absent from the mapping. -/
theorem C1_auth_failure_keeps_exchange :
    (∀ (cfg : Config) (c : String → Except PyErr Client)
        (lm : String → Except PyErr Unit),
      (initializeExchanges cfg c lm).2 = none) ∧
    initializeExchanges cfgBinanceKeys constructOk loadMarketsAuthFail
      = ([("binance", { rateLimit := 10 })], none) := by
  constructor
  · intro cfg c lm
    exact initLoop_snd c lm (get_active_exchanges cfg) []
  · decide

/-- C3: `get_active_exchanges` returns exactly the configured exchange
names whose `api_key` and `api_secret` are both non-empty, in mapping
order; membership holds precisely for exchanges with both credentials
non-empty. -/
theorem C3_get_active_exchanges_exact (cfg : Config) (name : String) :
    get_active_exchanges cfg
        = (cfg.exchanges.filter
            (fun p => decide (p.2.api_key ≠ "" ∧ p.2.api_secret ≠ ""))).map
              Prod.fst
      ∧ (name ∈ get_active_exchanges cfg ↔
          ∃ ec, (name, ec) ∈ cfg.exchanges ∧ ec.api_key ≠ "" ∧ ec.api_secret ≠ "") := by
  have h := activeLoop_eq cfg.exchanges []
  rw [List.nil_append] at h
  refine ⟨?_, ?_⟩
  · simpa [get_active_exchanges] using h
  · rw [get_active_exchanges, h]
    simp only [List.mem_map, List.mem_filter, decide_eq_true_eq, Prod.exists]
    constructor
    · rintro ⟨a, b, ⟨hmem, hk, hs⟩, rfl⟩
      exact ⟨b, hmem, hk, hs⟩
    · rintro ⟨ec, hmem, hk, hs⟩
      exact ⟨name, ec, ⟨hmem, hk, hs⟩, rfl⟩

/-- C2: for every environment assignment with ENVIRONMENT set to
`"production"` and FIREBASE_PROJECT_ID unset (so the Firebase project id
defaults to the empty string), `Config()` raises a `ValueError`: either a
numeric variable fails to parse, or `_validate_config` rejects the empty
Firebase project id. -/
theorem C2_production_missing_firebase_fails (env : Env)
    (h1 : dictGet env "ENVIRONMENT" = some "production")
    (h2 : dictGet env "FIREBASE_PROJECT_ID" = none) :
    ∃ msg, mkConfig env = .error (.valueError msg) := by
  have he : getenv env "ENVIRONMENT" "development" = "production" := by
    simp [getenv, h1]
  have hf : getenv env "FIREBASE_PROJECT_ID" "" = "" := by
    simp [getenv, h2]
  rcases hW : pyIntE (getenv env "WINDOW_SIZE" "100") with m | w
  · cases m with
    | valueError msg => exact ⟨msg, by simp [mkConfig, hW]⟩
  rcases hP : pyIntE (getenv env "POLLING_INTERVAL" "60") with m | p
  · cases m with
    | valueError msg => exact ⟨msg, by simp [mkConfig, hW, hP]⟩
  rcases hH : pyIntE (getenv env "PREDICTION_HORIZON" "5") with m | ph
  · cases m with
    | valueError msg => exact ⟨msg, by simp [mkConfig, hW, hP, hH]⟩
  rcases hC : pyFloatE (getenv env "CONFIDENCE_THRESHOLD" "0.7") with m | c
  · cases m with
    | valueError msg => exact ⟨msg, by simp [mkConfig, hW, hP, hH, hC]⟩
  rcases hR : pyIntE (getenv env "RETRAIN_INTERVAL" "3600") with m | r
  · cases m with
    | valueError msg => exact ⟨msg, by simp [mkConfig, hW, hP, hH, hC, hR]⟩
  refine ⟨"Firebase configuration missing", ?_⟩
  simp [mkConfig, hW, hP, hH, hC, hR, validateConfig, buildConfig, he, hf]

/-- Witness for C2 at the concrete environment where only ENVIRONMENT is
set, to the string production. -/
theorem C2_witness :
    ∃ msg, mkConfig [("ENVIRONMENT", "production")]
      = .error (.valueError msg) :=
  C2_production_missing_firebase_fails [("ENVIRONMENT", "production")]
    (by decide) (by decide)

/-- C5 counterexample: an environment with ENVIRONMENT=production and
FIREBASE_PROJECT_ID set to a non-empty string on which `Config()` still
raises a `ValueError`, because `int("abc")` raises while parsing
WINDOW_SIZE — so construction does not succeed for every such
environment. -/
theorem C5_counterexample :
    mkConfig [("ENVIRONMENT", "production"), ("FIREBASE_PROJECT_ID", "amin"),
        ("WINDOW_SIZE", "abc")]
      = .error (.valueError "invalid literal for int(): abc") := by decide

/-- C5 (amended): with ENVIRONMENT=production, FIREBASE_PROJECT_ID
non-empty, and every numeric variable unset or parseable, `Config()`
succeeds regardless of exchange credentials; a missing Binance API key
only logs the warning. -/
theorem C5_production_with_firebase_succeeds (env : Env)
    (h1 : dictGet env "ENVIRONMENT" = some "production")
    (h2 : getenv env "FIREBASE_PROJECT_ID" "" ≠ "")
    (hw : pyInt (getenv env "WINDOW_SIZE" "100") ≠ none)
    (hp : pyInt (getenv env "POLLING_INTERVAL" "60") ≠ none)
    (hh : pyInt (getenv env "PREDICTION_HORIZON" "5") ≠ none)
    (hc : pyFloat (getenv env "CONFIDENCE_THRESHOLD" "0.7") ≠ none)
    (hr : pyInt (getenv env "RETRAIN_INTERVAL" "3600") ≠ none) :
    exceptIsOk (mkConfig env) = true ∧
    (getenv env "BINANCE_API_KEY" "" = "" →
      resultWarnings (mkConfig env) = ["Binance API key not configured"]) := by
  have he : getenv env "ENVIRONMENT" "development" = "production" := by
    simp [getenv, h1]
  rcases hW : pyInt (getenv env "WINDOW_SIZE" "100") with _ | w
  · exact absurd hW hw
  rcases hP : pyInt (getenv env "POLLING_INTERVAL" "60") with _ | p
  · exact absurd hP hp
  rcases hH : pyInt (getenv env "PREDICTION_HORIZON" "5") with _ | ph
  · exact absurd hH hh
  rcases hC : pyFloat (getenv env "CONFIDENCE_THRESHOLD" "0.7") with _ | c
  · exact absurd hC hc
  rcases hR : pyInt (getenv env "RETRAIN_INTERVAL" "3600") with _ | r
  · exact absurd hR hr
  constructor
  · simp [mkConfig, pyIntE, pyFloatE, hW, hP, hH, hC, hR, validateConfig,
      buildConfig, he, h2, exceptIsOk]
  · intro hb
    simp [mkConfig, pyIntE, pyFloatE, hW, hP, hH, hC, hR, validateConfig,
      buildConfig, he, h2, hb, dictGet, resultWarnings]

/-- Witness for C5 (amended) at the concrete environment
{ ENVIRONMENT=production, FIREBASE_PROJECT_ID=amin } with no exchange
credentials: construction succeeds and the Binance warning is logged. -/
theorem C5_witness :
    exceptIsOk (mkConfig
        [("ENVIRONMENT", "production"), ("FIREBASE_PROJECT_ID", "amin")]) = true ∧
    (getenv [("ENVIRONMENT", "production"), ("FIREBASE_PROJECT_ID", "amin")]
        "BINANCE_API_KEY" "" = "" →
      resultWarnings (mkConfig
          [("ENVIRONMENT", "production"), ("FIREBASE_PROJECT_ID", "amin")])
        = ["Binance API key not configured"]) :=
  C5_production_with_firebase_succeeds
    [("ENVIRONMENT", "production"), ("FIREBASE_PROJECT_ID", "amin")]
    (by decide) (by decide) (by decide) (by decide) (by decide) (by decide)
    (by decide)

/-- C10: every successful `Config()` run yields a non-empty symbols list
(`split` on a comma always returns at least one piece), and SYMBOLS set
to the empty string yields the one-element list holding the empty
string. -/
theorem C10_symbols_nonempty :
    (∀ (env : Env) (res : Config × List String),
        mkConfig env = .ok res → res.1.symbols ≠ []) ∧
    (mkConfig [("SYMBOLS", "")]).map (fun r => r.1.symbols) = .ok [""] := by
  constructor
  · intro env res h
    rcases hW : pyIntE (getenv env "WINDOW_SIZE" "100") with ⟨m⟩ | w
    · simp [mkConfig, hW] at h
    rcases hP : pyIntE (getenv env "POLLING_INTERVAL" "60") with ⟨m⟩ | p
    · simp [mkConfig, hW, hP] at h
    rcases hH : pyIntE (getenv env "PREDICTION_HORIZON" "5") with ⟨m⟩ | ph
    · simp [mkConfig, hW, hP, hH] at h
    rcases hC : pyFloatE (getenv env "CONFIDENCE_THRESHOLD" "0.7") with ⟨m⟩ | c
    · simp [mkConfig, hW, hP, hH, hC] at h
    rcases hR : pyIntE (getenv env "RETRAIN_INTERVAL" "3600") with ⟨m⟩ | r
    · simp [mkConfig, hW, hP, hH, hC, hR] at h
    rcases hV : validateConfig (buildConfig env w p ph c r) with ⟨m⟩ | ws
    · simp [mkConfig, hW, hP, hH, hC, hR, hV] at h
    · have hres : res = (buildConfig env w p ph c r, ws) := by
        have := h
        simp [mkConfig, hW, hP, hH, hC, hR, hV] at this
        exact this.symm
      rw [hres]
      simpa [buildConfig] using pySplit_ne_nil ',' (getenv env "SYMBOLS" "BTC/USDT,ETH/USDT")
  · decide

/-- C7: with no environment variable set, `Config()` succeeds without
raising and produces exactly the documented defaults (INFO log level,
development environment, empty credentials, default Firebase collection,
window 100, polling 60, symbols BTC/USDT and ETH/USDT, horizon 5,
confidence 0.7, retrain 3600), logging no warning. -/
theorem C7_empty_environment_defaults :
    mkConfig [] = .ok (defaultConfig, []) := by decide

/-- Witness for the universally quantified half of C10 at the empty
environment. -/
theorem C10_witness : (defaultConfig, ([] : List String)).1.symbols ≠ [] :=
  C10_symbols_nonempty.1 [] (defaultConfig, []) (by decide)

theorem rateLimitWait_none (ex : Client) (name : String)
    (lft : List (String × ℚ)) (clock : ℚ) (h : dictGet lft name = none) :
    rateLimitWait ex name lft clock = (clock, []) := by
  simp [rateLimitWait, h]

theorem rateLimitWait_spacing (ex : Client) (name : String)
    (lft : List (String × ℚ)) (clock t1 : ℚ)
    (h : dictGet lft name = some t1) :
    t1 + 1 / ex.rateLimit ≤ (rateLimitWait ex name lft clock).1 := by
  simp only [rateLimitWait, h]
  split_ifs with hlt
  · simp only
    linarith
  · simp only
    linarith [not_lt.mp hlt]

theorem rateLimitWait_no_netcall (ex : Client) (name n : String)
    (lft : List (String × ℚ)) (clock t : ℚ) :
    Event.netcall n t ∉ (rateLimitWait ex name lft clock).2 := by
  rcases h : dictGet lft name with _ | last
  · simp [rateLimitWait, h]
  · simp only [rateLimitWait, h]
    split_ifs <;> simp

theorem attempt_netcall_eq (beh : FetchBehavior) (ex : Client)
    (name : String) (lft : List (String × ℚ)) (clock t2 : ℚ)
    (h2 : Event.netcall name t2 ∈ (attemptExchange beh ex name lft clock).events) :
    t2 = (rateLimitWait ex name lft clock).1 := by
  rcases hres : beh.result (rateLimitWait ex name lft clock).1 with e | rows <;>
    simp only [attemptExchange, hres, List.mem_append, List.mem_singleton,
      List.mem_cons, List.not_mem_nil, or_false] at h2 <;>
    rcases h2 with h2 | h2
  · exact absurd h2 (rateLimitWait_no_netcall ex name name lft clock t2)
  · exact (Event.netcall.injEq _ _ _ _).mp h2 |>.2
  · exact absurd h2 (rateLimitWait_no_netcall ex name name lft clock t2)
  · rcases h2 with h2 | h2
    · exact (Event.netcall.injEq _ _ _ _).mp h2 |>.2
    · exact absurd h2 (by simp)

theorem fetchOhlcv_named (beh : String → FetchBehavior) (st : FetchState)
    (name : String) (ex : Client)
    (hex : dictGet st.exchanges name = some ex) :
    (fetchOhlcv beh st (some name)).events
        = (attemptExchange (beh name) ex name st.lft st.clock).events ∧
    (fetchOhlcv beh st (some name)).state.exchanges = st.exchanges ∧
    (fetchOhlcv beh st (some name)).state.lft
        = (attemptExchange (beh name) ex name st.lft st.clock).lft := by
  rcases hres : (attemptExchange (beh name) ex name st.lft st.clock).result
      with e | o
  · simp [fetchOhlcv, candidateList, fetchLoop, hex, hres]
  · rcases o with _ | rows
    · simp [fetchOhlcv, candidateList, fetchLoop, hex, hres]
    · simp [fetchOhlcv, candidateList, fetchLoop, hex, hres]

/-- C4: when `fetch_ohlcv` is called twice in succession on the same live
exchange, any underlying network call of the second invocation starts at
least `1.0 / rateLimit` seconds after the timestamp the first invocation
recorded in `last_fetch_time` — the pre-fetch sleep covers the remaining
portion of the minimum inter-request interval. -/
theorem C4_rate_limit_spacing (beh1 beh2 : String → FetchBehavior)
    (st : FetchState) (name : String) (ex : Client) (t1 t2 : ℚ)
    (hex : dictGet st.exchanges name = some ex)
    (_hrl : 0 < ex.rateLimit)
    (h1 : dictGet (fetchOhlcv beh1 st (some name)).state.lft name = some t1)
    (h2 : Event.netcall name t2 ∈
      (fetchOhlcv beh2 (fetchOhlcv beh1 st (some name)).state
        (some name)).events) :
    t1 + 1 / ex.rateLimit ≤ t2 := by
  obtain ⟨hev1, hexch1, hlft1⟩ := fetchOhlcv_named beh1 st name ex hex
  have hex2 : dictGet (fetchOhlcv beh1 st (some name)).state.exchanges name
      = some ex := by rw [hexch1]; exact hex
  obtain ⟨hev2, _, _⟩ :=
    fetchOhlcv_named beh2 (fetchOhlcv beh1 st (some name)).state name ex hex2
  rw [hev2] at h2
  have ht2 := attempt_netcall_eq (beh2 name) ex name
    (fetchOhlcv beh1 st (some name)).state.lft
    (fetchOhlcv beh1 st (some name)).state.clock t2 h2
  rw [ht2]
  exact rateLimitWait_spacing ex name _ _ t1 h1

/-- Witness for C4: two successive calls on a live exchange with
rate limit 10 and instantaneous fetches; the first records time 0 and the
second's network call happens at 1/10, meeting the bound. -/
theorem C4_witness : (0 : ℚ) + 1 / (Client.mk 10).rateLimit ≤ 1 / 10 :=
  C4_rate_limit_spacing behFetchOk behFetchOk
    ⟨[("binance", ⟨10⟩)], [], 0⟩ "binance" ⟨10⟩ 0 (1 / 10)
    (by decide) (by norm_num) (by decide) (by decide)

/-- C6 counterexample: an attempt whose underlying fetch raises reaches
the network call (the netcall event is performed) yet leaves
`last_fetch_time` without an entry for the exchange, refuting the claim
that the entry is updated whether or not the network call succeeds. -/
theorem C6_counterexample :
    Event.netcall "binance" 0
        ∈ (attemptExchange behFetchErr ⟨10⟩ "binance" [] 0).events ∧
    dictGet (attemptExchange behFetchErr ⟨10⟩ "binance" [] 0).lft "binance"
        = none := by decide

/-- C6 (amended): for every candidate attempt that reaches the underlying
network fetch, `last_fetch_time` is updated to the post-fetch clock
exactly when the fetch returns normally; when the fetch raises, the
mapping is left unchanged. -/
theorem C6_lft_updated_only_on_success (beh : FetchBehavior) (ex : Client)
    (name : String) (lft : List (String × ℚ)) (clock : ℚ) :
    (∀ e, (attemptExchange beh ex name lft clock).result = .error e →
        (attemptExchange beh ex name lft clock).lft = lft) ∧
    (∀ o, (attemptExchange beh ex name lft clock).result = .ok o →
        dictGet (attemptExchange beh ex name lft clock).lft name
          = some (attemptExchange beh ex name lft clock).clock) := by
  rcases hres : beh.result (rateLimitWait ex name lft clock).1 with e | rows
  · refine ⟨fun e2 _ => ?_, fun o ho => ?_⟩
    · simp [attemptExchange, hres]
    · simp [attemptExchange, hres] at ho
  · refine ⟨fun e2 he => ?_, fun o _ => ?_⟩
    · simp [attemptExchange, hres] at he
    · simp only [attemptExchange, hres]
      exact dictGet_dictSet_self lft name _

/-- Witness for C6 (amended), error side: a raising fetch leaves the
empty `last_fetch_time` mapping empty. -/
theorem C6_witness :
    (attemptExchange behFetchErr ⟨10⟩ "binance" [] 0).lft = [] :=
  (C6_lft_updated_only_on_success behFetchErr ⟨10⟩ "binance" [] 0).1
    (.network "connection reset") (by decide)

theorem fetchLoop_all_dead (beh : String → FetchBehavior)
    (names : List String) (st : FetchState) (evs : List Event)
    (h : ∀ n ∈ names, dictGet st.exchanges n = none) :
    fetchLoop beh names st evs = ⟨evs, st, none⟩ := by
  induction names with
  | nil => simp [fetchLoop]
  | cons n rest ih =>
      have hn := h n (by simp)
      simp only [fetchLoop, hn]
      exact ih (fun m hm => h m (by simp [hm]))

/-- C8: when no candidate exchange is live — the explicitly named
exchange has no live client, or no name is given and the live mapping is
empty — `fetch_ohlcv` performs no event at all (no network call, no
sleep), leaves the state unchanged, and returns `None`. -/
theorem C8_no_live_candidate_returns_none (beh : String → FetchBehavior)
    (st : FetchState) (exchange_name : Option String)
    (h : ∀ n ∈ candidateList st exchange_name, dictGet st.exchanges n = none) :
    fetchOhlcv beh st exchange_name = ⟨[], st, none⟩ :=
  fetchLoop_all_dead beh (candidateList st exchange_name) st [] h

/-- Witness for C8: a named exchange with no live client on an empty
mapping yields no events, an unchanged state, and a `None` result. -/
theorem C8_witness :
    fetchOhlcv behFetchOk ⟨[], [], 0⟩ (some "binance")
      = ⟨[], ⟨[], [], 0⟩, none⟩ :=
  C8_no_live_candidate_returns_none behFetchOk ⟨[], [], 0⟩ (some "binance")
    (by decide)

/-- C9: an attempt on an exchange with no `last_fetch_time` entry (its
first-ever fetch) performs no rate-limit sleep, and its underlying
network call starts at the current clock. -/
theorem C9_first_fetch_no_sleep (beh : FetchBehavior) (ex : Client)
    (name : String) (lft : List (String × ℚ)) (clock : ℚ)
    (h : dictGet lft name = none) :
    (attemptExchange beh ex name lft clock).events.filter isSleep = [] ∧
    Event.netcall name clock ∈ (attemptExchange beh ex name lft clock).events := by
  have hw := rateLimitWait_none ex name lft clock h
  rcases hres : beh.result clock with e | rows <;>
    simp [attemptExchange, hw, hres, isSleep, List.filter]

/-- Witness for C9 at a concrete first fetch: no sleep event, network
call at clock 0. -/
theorem C9_witness :
    (attemptExchange (behFetchOk "binance") ⟨10⟩ "binance" [] 0).events.filter
        isSleep = [] ∧
    Event.netcall "binance" 0
      ∈ (attemptExchange (behFetchOk "binance") ⟨10⟩ "binance" [] 0).events :=
  C9_first_fetch_no_sleep (behFetchOk "binance") ⟨10⟩ "binance" [] 0 (by decide)

end AMIN
